import Mathlib

/-!
Verification of the Piper compiler front end (lexer, recursive-descent
parser, code generator), shallowly embedded from the TypeScript sources
src/lexer.ts, src/ast.ts, src/parser.ts, src/errors.ts, src/codegen.ts.

Modelling conventions:
- JS strings are modelled as List Char; reading past the end of the source
  yields the NUL character, mirroring the fallback in Lexer.current.
- While-loops are embedded as fuel-indexed recursive functions so that all
  definitions compute by kernel reduction; the wrappers supply fuel that
  provably or evidently exceeds the number of iterations the scan performs,
  so the fuel-exhaustion branches are dead for every input reaching them.
- Thrown exceptions are modelled with Except; lexer and generator errors
  carry the exception message string, parser errors carry the PiperError
  fields message, line, column (the carried source text is omitted: it is
  only used for rendering).
- The loc fields that AST nodes carry for diagnostics are omitted from the
  embedding: no consumer in scope (code generator) reads them.
-/

set_option maxHeartbeats 1600000
set_option maxRecDepth 4096

/-! ## Lexer (src/lexer.ts) -/

structure SourceLocation where
  line : Nat
  column : Nat
deriving DecidableEq

inductive TokenType where
  | NUMBER | STRING | TRUE | FALSE | NULL
  | IDENTIFIER | LET | VAR | FN | IF | THEN | ELSE | WHILE | FOR | IN | RETURN
  | PLUS | MINUS | STAR | SLASH | PERCENT
  | EQ | EQEQ | NEQ | LT | LTE | GT | GTE
  | AND | OR | NOT | PIPE
  | LPAREN | RPAREN | LBRACE | RBRACE | LBRACKET | RBRACKET
  | COMMA | SEMICOLON | ARROW
  | EOF | NEWLINE
deriving DecidableEq

structure Token where
  type : TokenType
  value : String
  loc : SourceLocation
deriving DecidableEq

/-- KEYWORDS table of src/lexer.ts: keyword text to token type, falling back
to IDENTIFIER for any other identifier text. -/
def keywordType (value : String) : TokenType :=
  if value = "let" then .LET
  else if value = "var" then .VAR
  else if value = "fn" then .FN
  else if value = "if" then .IF
  else if value = "then" then .THEN
  else if value = "else" then .ELSE
  else if value = "while" then .WHILE
  else if value = "for" then .FOR
  else if value = "in" then .IN
  else if value = "return" then .RETURN
  else if value = "true" then .TRUE
  else if value = "false" then .FALSE
  else if value = "null" then .NULL
  else .IDENTIFIER

/-- The Lexer instance state: the source text plus the mutable cursor fields
pos, line, column (initialised to 0, 1, 1 by the constructor). -/
structure Lexer where
  source : List Char
  pos : Nat
  line : Nat
  column : Nat
deriving DecidableEq

/-- The Lexer constructor: fresh cursor state over the given source text. -/
def mkLexer (source : String) : Lexer :=
  ⟨source.data, 0, 1, 1⟩

/-- Lexer.current: the character at the cursor, NUL past the end of input. -/
def Lexer.current (st : Lexer) : Char :=
  st.source.getD st.pos '\x00'

/-- Lexer.peek with the default offset 1 (the only offset the source uses). -/
def Lexer.peek (st : Lexer) : Char :=
  st.source.getD (st.pos + 1) '\x00'

/-- Lexer.advance: return the current character and move the cursor,
tracking line and column. -/
def Lexer.advance (st : Lexer) : Char × Lexer :=
  let ch := st.current
  if ch = '\n' then (ch, ⟨st.source, st.pos + 1, st.line + 1, 1⟩)
  else (ch, ⟨st.source, st.pos + 1, st.line, st.column + 1⟩)

/-- Sentinel message for fuel exhaustion; never returned for the fuel the
wrappers supply. -/
def lexFuelMsg : String := "LEXER FUEL EXHAUSTED"

/-- Lexer.skipWhitespace: consume spaces, tabs and carriage returns. -/
def skipWhitespaceF : Nat → Lexer → Lexer
  | fuel, st =>
    if st.current = ' ' ∨ st.current = '\t' ∨ st.current = '\r' then
      match fuel with
      | 0 => st
      | f + 1 => skipWhitespaceF f (st.advance).2
    else st

def Lexer.skipWhitespace (st : Lexer) : Lexer :=
  skipWhitespaceF st.source.length st

/-- The scan inside Lexer.skipComment: consume until end of line. The
source reads this.source[this.pos] without the NUL fallback here, so past
the end of input that read is undefined and the loop in the source never
exits; we stop at end of input instead (that situation is a line comment
reaching end of input, which no claim and no test exercises). -/
def skipCommentLoopF : Nat → Lexer → Lexer
  | fuel, st =>
    if st.source.getD st.pos '\x00' ≠ '\n' ∧ st.source.getD st.pos '\x00' ≠ '\x00'
        ∧ st.pos < st.source.length then
      match fuel with
      | 0 => st
      | f + 1 => skipCommentLoopF f (st.advance).2
    else st

/-- Lexer.skipComment: if positioned at two slashes, skip them (adjusting
the column directly, as the source does) and consume to end of line. -/
def Lexer.skipComment (st : Lexer) : Lexer :=
  if st.current = '/' ∧ st.peek = '/' then
    skipCommentLoopF st.source.length ⟨st.source, st.pos + 2, st.line, st.column + 2⟩
  else st

/-- The digit-consuming loop of Lexer.readNumber. -/
def readDigitsF : Nat → Lexer → String → String × Lexer
  | fuel, st, value =>
    if (st.current).isDigit then
      match fuel with
      | 0 => (value, st)
      | f + 1 =>
        let ch := st.current
        readDigitsF f (st.advance).2 (value.push ch)
    else (value, st)

/-- Lexer.readNumber: one or more digits, optionally a dot followed by more
digits; the dot is consumed only when a digit follows it. -/
def Lexer.readNumber (st : Lexer) : Token × Lexer :=
  let start : SourceLocation := ⟨st.line, st.column⟩
  let (v1, st1) := readDigitsF st.source.length st ""
  if st1.current = '.' ∧ (st1.peek).isDigit then
    let dot := st1.current
    let st2 := (st1.advance).2
    let (v2, st3) := readDigitsF st2.source.length st2 (v1.push dot)
    (⟨.NUMBER, v2, start⟩, st3)
  else (⟨.NUMBER, v1, start⟩, st1)

/-- The escape-resolution switch inside Lexer.readString. -/
def escChar (quote next : Char) : Char :=
  if next = 'n' then '\n'
  else if next = 't' then '\t'
  else if next = 'r' then '\r'
  else if next = '\\' then '\\'
  else if next = quote then quote
  else next

/-- The scan loop of Lexer.readString: consume characters (resolving
escapes) until the closing quote or end of input; end of input is the
unterminated-string error, citing the recorded start position. -/
def readStringLoopF : Nat → Char → Nat → Nat → String → Lexer →
    Except String (String × Lexer)
  | fuel, quote, startLine, startColumn, value, st =>
    if st.current ≠ quote ∧ st.current ≠ '\x00' then
      match fuel with
      | 0 => .error lexFuelMsg
      | f + 1 =>
        if st.current = '\\' then
          let st1 := (st.advance).2
          let next := st1.current
          readStringLoopF f quote startLine startColumn
            (value.push (escChar quote next)) (st1.advance).2
        else
          let ch := st.current
          readStringLoopF f quote startLine startColumn (value.push ch) (st.advance).2
    else if st.current = '\x00' then
      .error ("Unterminated string at line " ++ toString startLine ++
        ", column " ++ toString startColumn)
    else
      .ok (value, (st.advance).2)

/-- Lexer.readString: record the start position, consume the opening quote,
scan to the closing quote. -/
def Lexer.readString (st : Lexer) : Except String (Token × Lexer) :=
  let start : SourceLocation := ⟨st.line, st.column⟩
  let quote := st.current
  let st1 := (st.advance).2
  match readStringLoopF (st.source.length + 2) quote start.line start.column "" st1 with
  | .error e => .error e
  | .ok (value, st2) => .ok (⟨.STRING, value, start⟩, st2)

/-- The identifier-consuming loop of Lexer.readIdentifier. -/
def readIdentCharsF : Nat → Lexer → String → String × Lexer
  | fuel, st, value =>
    if (st.current).isAlphanum ∨ st.current = '_' then
      match fuel with
      | 0 => (value, st)
      | f + 1 =>
        let ch := st.current
        readIdentCharsF f (st.advance).2 (value.push ch)
    else (value, st)

/-- Lexer.readIdentifier: consume identifier characters and classify the
text through the keyword table. -/
def Lexer.readIdentifier (st : Lexer) : Token × Lexer :=
  let start : SourceLocation := ⟨st.line, st.column⟩
  let (value, st') := readIdentCharsF st.source.length st ""
  (⟨keywordType value, value, start⟩, st')

/-- Prepend a token to the result of the continued scan. -/
def consTok (tok : Token) (r : Except String (List Token × Lexer)) :
    Except String (List Token × Lexer) :=
  match r with
  | .error e => .error e
  | .ok (ts, st) => .ok (tok :: ts, st)

/-- The main while-loop of Lexer.tokenize. Branch order follows the source:
newline, number, string, identifier/keyword, the eight two-character
operators, then the single-character switch whose default is the
unexpected-character error. -/
def tokenizeLoopF : Nat → Lexer → Except String (List Token × Lexer)
  | fuel, st0 =>
    if st0.current = '\x00' then .ok ([], st0)
    else
      match fuel with
      | 0 => .error lexFuelMsg
      | f + 1 =>
        let st := (st0.skipWhitespace).skipComment
        if st.current = '\x00' then .ok ([], st)
        else
          let loc : SourceLocation := ⟨st.line, st.column⟩
          if st.current = '\n' then
            consTok ⟨.NEWLINE, "\\n", loc⟩ (tokenizeLoopF f (st.advance).2)
          else if (st.current).isDigit then
            let (tok, st2) := st.readNumber
            consTok tok (tokenizeLoopF f st2)
          else if st.current = '"' ∨ st.current = '\x27' then
            match st.readString with
            | .error e => .error e
            | .ok (tok, st2) => consTok tok (tokenizeLoopF f st2)
          else if (st.current).isAlpha ∨ st.current = '_' then
            let (tok, st2) := st.readIdentifier
            consTok tok (tokenizeLoopF f st2)
          else if st.current = '=' ∧ st.peek = '=' then
            consTok ⟨.EQEQ, "==", loc⟩ (tokenizeLoopF f (((st.advance).2).advance).2)
          else if st.current = '!' ∧ st.peek = '=' then
            consTok ⟨.NEQ, "!=", loc⟩ (tokenizeLoopF f (((st.advance).2).advance).2)
          else if st.current = '<' ∧ st.peek = '=' then
            consTok ⟨.LTE, "<=", loc⟩ (tokenizeLoopF f (((st.advance).2).advance).2)
          else if st.current = '>' ∧ st.peek = '=' then
            consTok ⟨.GTE, ">=", loc⟩ (tokenizeLoopF f (((st.advance).2).advance).2)
          else if st.current = '&' ∧ st.peek = '&' then
            consTok ⟨.AND, "&&", loc⟩ (tokenizeLoopF f (((st.advance).2).advance).2)
          else if st.current = '|' ∧ st.peek = '|' then
            consTok ⟨.OR, "||", loc⟩ (tokenizeLoopF f (((st.advance).2).advance).2)
          else if st.current = '|' ∧ st.peek = '>' then
            consTok ⟨.PIPE, "|>", loc⟩ (tokenizeLoopF f (((st.advance).2).advance).2)
          else if st.current = '-' ∧ st.peek = '>' then
            consTok ⟨.ARROW, "->", loc⟩ (tokenizeLoopF f (((st.advance).2).advance).2)
          else
            let ch := st.current
            let st2 := (st.advance).2
            if ch = '+' then consTok ⟨.PLUS, "+", loc⟩ (tokenizeLoopF f st2)
            else if ch = '-' then consTok ⟨.MINUS, "-", loc⟩ (tokenizeLoopF f st2)
            else if ch = '*' then consTok ⟨.STAR, "*", loc⟩ (tokenizeLoopF f st2)
            else if ch = '/' then consTok ⟨.SLASH, "/", loc⟩ (tokenizeLoopF f st2)
            else if ch = '%' then consTok ⟨.PERCENT, "%", loc⟩ (tokenizeLoopF f st2)
            else if ch = '=' then consTok ⟨.EQ, "=", loc⟩ (tokenizeLoopF f st2)
            else if ch = '<' then consTok ⟨.LT, "<", loc⟩ (tokenizeLoopF f st2)
            else if ch = '>' then consTok ⟨.GT, ">", loc⟩ (tokenizeLoopF f st2)
            else if ch = '!' then consTok ⟨.NOT, "!", loc⟩ (tokenizeLoopF f st2)
            else if ch = '(' then consTok ⟨.LPAREN, "(", loc⟩ (tokenizeLoopF f st2)
            else if ch = ')' then consTok ⟨.RPAREN, ")", loc⟩ (tokenizeLoopF f st2)
            else if ch = '\x7b' then consTok ⟨.LBRACE, "\x7b", loc⟩ (tokenizeLoopF f st2)
            else if ch = '\x7d' then consTok ⟨.RBRACE, "\x7d", loc⟩ (tokenizeLoopF f st2)
            else if ch = '[' then consTok ⟨.LBRACKET, "[", loc⟩ (tokenizeLoopF f st2)
            else if ch = ']' then consTok ⟨.RBRACKET, "]", loc⟩ (tokenizeLoopF f st2)
            else if ch = ',' then consTok ⟨.COMMA, ",", loc⟩ (tokenizeLoopF f st2)
            else if ch = ';' then consTok ⟨.SEMICOLON, ";", loc⟩ (tokenizeLoopF f st2)
            else if ch = '|' then consTok ⟨.PIPE, "|", loc⟩ (tokenizeLoopF f st2)
            else
              .error ("Unexpected character \x27" ++ String.singleton ch ++
                "\x27 at line " ++ toString loc.line ++ ", column " ++ toString loc.column)

/-- Lexer.tokenize: scan the whole source and append the terminal EOF token
carrying the final cursor position. The instance state is returned so that
repeated calls on one instance are observable, as in the source. -/
def Lexer.tokenize (st : Lexer) : Except String (List Token × Lexer) :=
  match tokenizeLoopF (st.source.length + 1) st with
  | .error e => .error e
  | .ok (ts, st') => .ok (ts ++ [⟨.EOF, "", ⟨st'.line, st'.column⟩⟩], st')

/-- Token list of a source text scanned by a fresh Lexer instance. -/
def tokensOf (source : String) : Except String (List Token) :=
  match (mkLexer source).tokenize with
  | .error e => .error e
  | .ok (ts, _) => .ok ts

/-! ## AST (src/ast.ts) -/

/-- The numeric value of a number literal. The source stores
parseFloat(token.value) and the generator prints it with String(value);
on the literal grammar (digits, optionally a dot and digits) that pair is
modelled exactly by an integer part and a fraction with trailing zeros
removed, printed as intPart or intPart.fracPart. -/
structure JsNumber where
  intPart : Nat
  fracPart : String
deriving DecidableEq

/-- Fold decimal digit characters into a Nat. -/
def digitsToNat (cs : List Char) : Nat :=
  cs.foldl (fun n c => n * 10 + (c.toNat - '0'.toNat)) 0

/-- parseFloat restricted to the lexer number grammar (see JsNumber). -/
def parseFloat (s : String) : JsNumber :=
  let cs := s.data
  let intDigits := cs.takeWhile (fun c => c ≠ '.')
  let fracRaw := (cs.dropWhile (fun c => c ≠ '.')).drop 1
  let frac := ((fracRaw.reverse).dropWhile (fun c => c = '0')).reverse
  ⟨digitsToNat intDigits, String.mk frac⟩

/-- String(value) for a number value (see JsNumber). -/
def JsNumber.render (v : JsNumber) : String :=
  if v.fracPart = "" then toString v.intPart
  else toString v.intPart ++ "." ++ v.fracPart

/-- Literal.value: number, string, boolean or null. -/
inductive LitValue where
  | num (v : JsNumber)
  | str (s : String)
  | bool (b : Bool)
  | null
deriving DecidableEq

/-- The ASTNode tagged union of src/ast.ts. Fields follow the source;
optional else branches and return values are Option; the loc fields are
omitted (see the header comment). The ForStatement field called variable in
the source is varName here, since variable is a reserved word in Lean. -/
inductive ASTNode where
  | Program (body : List ASTNode)
  | LetDeclaration (name : String) (init : ASTNode)
  | VarDeclaration (name : String) (init : ASTNode)
  | FunctionDeclaration (name : String) (params : List String)
      (body : ASTNode) (isExpression : Bool)
  | Assignment (name : String) (value : ASTNode)
  | IfExpression (condition : ASTNode) (thenBranch : ASTNode)
      (elseBranch : Option ASTNode)
  | WhileStatement (condition : ASTNode) (body : ASTNode)
  | ForStatement (varName : String) (iterable : ASTNode) (body : ASTNode)
  | BlockExpression (statements : List ASTNode)
  | BinaryExpression (operator : String) (left : ASTNode) (right : ASTNode)
  | UnaryExpression (operator : String) (operand : ASTNode)
  | PipeExpression (left : ASTNode) (right : ASTNode)
  | CallExpression (callee : ASTNode) (args : List ASTNode)
  | Lambda (params : List String) (body : ASTNode)
  | Identifier (name : String)
  | Literal (value : LitValue) (raw : String)
  | ArrayLiteral (elements : List ASTNode)
  | ExpressionStatement (expression : ASTNode)
  | ReturnStatement (value : Option ASTNode)

/-- The node.type tag string of an AST node, as used in error messages. -/
def nodeTag : ASTNode → String
  | .Program _ => "Program"
  | .LetDeclaration _ _ => "LetDeclaration"
  | .VarDeclaration _ _ => "VarDeclaration"
  | .FunctionDeclaration _ _ _ _ => "FunctionDeclaration"
  | .Assignment _ _ => "Assignment"
  | .IfExpression _ _ _ => "IfExpression"
  | .WhileStatement _ _ => "WhileStatement"
  | .ForStatement _ _ _ => "ForStatement"
  | .BlockExpression _ => "BlockExpression"
  | .BinaryExpression _ _ _ => "BinaryExpression"
  | .UnaryExpression _ _ => "UnaryExpression"
  | .PipeExpression _ _ => "PipeExpression"
  | .CallExpression _ _ => "CallExpression"
  | .Lambda _ _ => "Lambda"
  | .Identifier _ => "Identifier"
  | .Literal _ _ => "Literal"
  | .ArrayLiteral _ => "ArrayLiteral"
  | .ExpressionStatement _ => "ExpressionStatement"
  | .ReturnStatement _ => "ReturnStatement"

/-- The shape test applied to a pipe target by the code generator: only
Identifier and CallExpression are accepted (see generatePipeExpression). -/
def isIdentOrCall : ASTNode → Bool
  | .Identifier _ => true
  | .CallExpression _ _ => true
  | _ => false

/-! ## Errors (src/errors.ts) -/

/-- PiperError without the carried source text (used only for rendering). -/
structure PiperError where
  message : String
  line : Nat
  column : Nat
deriving DecidableEq

/-- TOKEN_DISPLAY_NAMES of src/errors.ts. The table covers every token
type, so the raw-name fallback of the lookup never fires. -/
def displayName : TokenType → String
  | .NUMBER => "number"
  | .STRING => "string"
  | .TRUE => "\x27true\x27"
  | .FALSE => "\x27false\x27"
  | .NULL => "\x27null\x27"
  | .IDENTIFIER => "identifier"
  | .LET => "\x27let\x27"
  | .VAR => "\x27var\x27"
  | .FN => "\x27fn\x27"
  | .IF => "\x27if\x27"
  | .THEN => "\x27then\x27"
  | .ELSE => "\x27else\x27"
  | .WHILE => "\x27while\x27"
  | .FOR => "\x27for\x27"
  | .IN => "\x27in\x27"
  | .RETURN => "\x27return\x27"
  | .PLUS => "\x27+\x27"
  | .MINUS => "\x27-\x27"
  | .STAR => "\x27*\x27"
  | .SLASH => "\x27/\x27"
  | .PERCENT => "\x27%\x27"
  | .EQ => "\x27=\x27"
  | .EQEQ => "\x27==\x27"
  | .NEQ => "\x27!=\x27"
  | .LT => "\x27<\x27"
  | .LTE => "\x27<=\x27"
  | .GT => "\x27>\x27"
  | .GTE => "\x27>=\x27"
  | .AND => "\x27&&\x27"
  | .OR => "\x27||\x27"
  | .NOT => "\x27!\x27"
  | .PIPE => "\x27|>\x27"
  | .LPAREN => "\x27(\x27"
  | .RPAREN => "\x27)\x27"
  | .LBRACE => "\x27\x7b\x27"
  | .RBRACE => "\x27\x7d\x27"
  | .LBRACKET => "\x27[\x27"
  | .RBRACKET => "\x27]\x27"
  | .COMMA => "\x27,\x27"
  | .SEMICOLON => "\x27;\x27"
  | .ARROW => "\x27->\x27"
  | .EOF => "end of file"
  | .NEWLINE => "newline"

/-! ## Parser (src/parser.ts) -/

/-- The Parser instance state: the (NEWLINE-filtered) token sequence and
the cursor. The carried source text is omitted (used only in errors). -/
structure Parser where
  tokens : List Token
  pos : Nat
deriving DecidableEq

/-- The Parser constructor: filter out NEWLINE tokens, cursor at 0. -/
def Parser.ofTokens (tokens : List Token) : Parser :=
  ⟨tokens.filter (fun t => t.type ≠ TokenType.NEWLINE), 0⟩

/-- Fallback token for indexing an empty token list; unreachable for
tokenizer output, which always ends with EOF. -/
def fallbackTok : Token := ⟨.EOF, "", ⟨0, 0⟩⟩

/-- Parser.current: the token at the cursor, falling back to the last
token past the end. -/
def curTok (toks : List Token) (pos : Nat) : Token :=
  toks.getD pos (toks.getLastD fallbackTok)

/-- Parser.peek with the default offset 1 (the only offset the source uses). -/
def peekTok (toks : List Token) (pos : Nat) : Token :=
  curTok toks (pos + 1)

/-- Parser.match: does the current token have one of the given types. -/
def matchT (toks : List Token) (pos : Nat) (types : List TokenType) : Bool :=
  types.contains (curTok toks pos).type

/-- Parser.expect: return the current token and advance when it has the
expected type, otherwise raise the expectation-mismatch diagnostic. -/
def expectT (toks : List Token) (pos : Nat) (ty : TokenType) :
    Except PiperError (Token × Nat) :=
  let token := curTok toks pos
  if token.type = ty then .ok (token, pos + 1)
  else
    .error ⟨"Expected " ++ displayName ty ++ " but found " ++ displayName token.type,
      token.loc.line, token.loc.column⟩

/-- The optional-semicolon consumption repeated across statement rules. -/
def skipSemi (toks : List Token) (pos : Nat) : Nat :=
  if (curTok toks pos).type = .SEMICOLON then pos + 1 else pos

/-- Parser fuel sentinel; never raised for the fuel Parser.parse supplies. -/
def parserFuelErr : PiperError := ⟨"PARSER FUEL EXHAUSTED", 0, 0⟩

mutual

/-- The statement loop of Parser.parse: collect statements until EOF. -/
def parseProgramF : Nat → List Token → Nat → Except PiperError (List ASTNode × Nat)
  | fuel, toks, pos =>
    if (curTok toks pos).type = .EOF then .ok ([], pos)
    else
      match fuel with
      | 0 => .error parserFuelErr
      | f + 1 => do
        let (stmt, pos1) ← parseStatementF f toks pos
        let (rest, pos2) ← parseProgramF f toks pos1
        .ok (stmt :: rest, pos2)

termination_by structural fuel _ _ => fuel
/-- Parser.parseStatement: dispatch on the leading keyword, the 2-token
assignment lookahead, else an expression statement with optional semicolon. -/
def parseStatementF : Nat → List Token → Nat → Except PiperError (ASTNode × Nat)
  | 0, _, _ => .error parserFuelErr
  | f + 1, toks, pos =>
    if matchT toks pos [.LET] then parseLetDeclarationF f toks pos
    else if matchT toks pos [.VAR] then parseVarDeclarationF f toks pos
    else if matchT toks pos [.FN] then parseFunctionDeclarationF f toks pos
    else if matchT toks pos [.RETURN] then parseReturnStatementF f toks pos
    else if matchT toks pos [.WHILE] then parseWhileStatementF f toks pos
    else if matchT toks pos [.FOR] then parseForStatementF f toks pos
    else if (curTok toks pos).type = .IDENTIFIER ∧ (peekTok toks pos).type = .EQ then
      parseAssignmentF f toks pos
    else do
      let (expr, pos1) ← parseExpressionF f toks pos
      let pos2 := if matchT toks pos1 [.SEMICOLON] then pos1 + 1 else pos1
      .ok (.ExpressionStatement expr, pos2)

termination_by structural fuel _ _ => fuel
/-- Parser.parseLetDeclaration. -/
def parseLetDeclarationF : Nat → List Token → Nat → Except PiperError (ASTNode × Nat)
  | 0, _, _ => .error parserFuelErr
  | f + 1, toks, pos => do
    let (nameTok, pos1) ← expectT toks (pos + 1) .IDENTIFIER
    let (_, pos2) ← expectT toks pos1 .EQ
    let (init, pos3) ← parseExpressionF f toks pos2
    .ok (.LetDeclaration nameTok.value init, skipSemi toks pos3)

termination_by structural fuel _ _ => fuel
/-- Parser.parseVarDeclaration. -/
def parseVarDeclarationF : Nat → List Token → Nat → Except PiperError (ASTNode × Nat)
  | 0, _, _ => .error parserFuelErr
  | f + 1, toks, pos => do
    let (nameTok, pos1) ← expectT toks (pos + 1) .IDENTIFIER
    let (_, pos2) ← expectT toks pos1 .EQ
    let (init, pos3) ← parseExpressionF f toks pos2
    .ok (.VarDeclaration nameTok.value init, skipSemi toks pos3)

termination_by structural fuel _ _ => fuel
/-- Parser.parseFunctionDeclaration: name, parenthesised parameter list,
then either expression style (after an equals sign) or block style. -/
def parseFunctionDeclarationF : Nat → List Token → Nat → Except PiperError (ASTNode × Nat)
  | 0, _, _ => .error parserFuelErr
  | f + 1, toks, pos => do
    let (nameTok, pos1) ← expectT toks (pos + 1) .IDENTIFIER
    let (_, pos2) ← expectT toks pos1 .LPAREN
    let (params, pos3) ←
      if matchT toks pos2 [.RPAREN] then .ok ([], pos2)
      else parseParamsLoopF f toks pos2 []
    let (_, pos4) ← expectT toks pos3 .RPAREN
    if matchT toks pos4 [.EQ] then do
      let (body, pos5) ← parseExpressionF f toks (pos4 + 1)
      .ok (.FunctionDeclaration nameTok.value params body true, skipSemi toks pos5)
    else do
      let (body, pos5) ← parseBlockExpressionF f toks pos4
      .ok (.FunctionDeclaration nameTok.value params body false, pos5)

termination_by structural fuel _ _ => fuel
/-- The do-while parameter-list loop shared textually by
parseFunctionDeclaration and parseLambda: a leading comma is consumed at
the top of each iteration, then an identifier is required; the loop repeats
while a comma follows. -/
def parseParamsLoopF : Nat → List Token → Nat → List String →
    Except PiperError (List String × Nat)
  | 0, _, _, _ => .error parserFuelErr
  | f + 1, toks, pos, acc => do
    let pos1 := if matchT toks pos [.COMMA] then pos + 1 else pos
    let (tok, pos2) ← expectT toks pos1 .IDENTIFIER
    if matchT toks pos2 [.COMMA] then parseParamsLoopF f toks pos2 (acc ++ [tok.value])
    else .ok (acc ++ [tok.value], pos2)

termination_by structural fuel _ _ _ => fuel
/-- Parser.parseAssignment. -/
def parseAssignmentF : Nat → List Token → Nat → Except PiperError (ASTNode × Nat)
  | 0, _, _ => .error parserFuelErr
  | f + 1, toks, pos => do
    let (nameTok, pos1) ← expectT toks pos .IDENTIFIER
    let (_, pos2) ← expectT toks pos1 .EQ
    let (value, pos3) ← parseExpressionF f toks pos2
    .ok (.Assignment nameTok.value value, skipSemi toks pos3)

termination_by structural fuel _ _ => fuel
/-- Parser.parseReturnStatement: a bare return before a semicolon, closing
brace or EOF carries no value (and consumes none of them). -/
def parseReturnStatementF : Nat → List Token → Nat → Except PiperError (ASTNode × Nat)
  | 0, _, _ => .error parserFuelErr
  | f + 1, toks, pos =>
    if matchT toks (pos + 1) [.SEMICOLON, .RBRACE, .EOF] then
      .ok (.ReturnStatement none, pos + 1)
    else do
      let (value, pos1) ← parseExpressionF f toks (pos + 1)
      .ok (.ReturnStatement (some value), skipSemi toks pos1)

termination_by structural fuel _ _ => fuel
/-- Parser.parseWhileStatement. -/
def parseWhileStatementF : Nat → List Token → Nat → Except PiperError (ASTNode × Nat)
  | 0, _, _ => .error parserFuelErr
  | f + 1, toks, pos => do
    let (condition, pos1) ← parseExpressionF f toks (pos + 1)
    let (body, pos2) ← parseBlockExpressionF f toks pos1
    .ok (.WhileStatement condition body, pos2)

termination_by structural fuel _ _ => fuel
/-- Parser.parseForStatement. -/
def parseForStatementF : Nat → List Token → Nat → Except PiperError (ASTNode × Nat)
  | 0, _, _ => .error parserFuelErr
  | f + 1, toks, pos => do
    let (varTok, pos1) ← expectT toks (pos + 1) .IDENTIFIER
    let (_, pos2) ← expectT toks pos1 .IN
    let (iterable, pos3) ← parseExpressionF f toks pos2
    let (body, pos4) ← parseBlockExpressionF f toks pos3
    .ok (.ForStatement varTok.value iterable body, pos4)

termination_by structural fuel _ _ => fuel
/-- Parser.parseExpression: the pipe tier is the whole expression grammar. -/
def parseExpressionF : Nat → List Token → Nat → Except PiperError (ASTNode × Nat)
  | 0, _, _ => .error parserFuelErr
  | f + 1, toks, pos => parsePipeF f toks pos

termination_by structural fuel _ _ => fuel
/-- Parser.parsePipe: left-associative chain of PIPE tokens; the right
operand of each step is a full logicalOr expression. -/
def parsePipeF : Nat → List Token → Nat → Except PiperError (ASTNode × Nat)
  | 0, _, _ => .error parserFuelErr
  | f + 1, toks, pos => do
    let (left, pos1) ← parseLogicalOrF f toks pos
    parsePipeLoopF f toks pos1 left

termination_by structural fuel _ _ => fuel
def parsePipeLoopF : Nat → List Token → Nat → ASTNode → Except PiperError (ASTNode × Nat)
  | 0, _, _, _ => .error parserFuelErr
  | f + 1, toks, pos, left =>
    if matchT toks pos [.PIPE] then do
      let (right, pos1) ← parseLogicalOrF f toks (pos + 1)
      parsePipeLoopF f toks pos1 (.PipeExpression left right)
    else .ok (left, pos)

termination_by structural fuel _ _ _ => fuel
/-- Parser.parseLogicalOr. -/
def parseLogicalOrF : Nat → List Token → Nat → Except PiperError (ASTNode × Nat)
  | 0, _, _ => .error parserFuelErr
  | f + 1, toks, pos => do
    let (left, pos1) ← parseLogicalAndF f toks pos
    parseLogicalOrLoopF f toks pos1 left

termination_by structural fuel _ _ => fuel
def parseLogicalOrLoopF : Nat → List Token → Nat → ASTNode → Except PiperError (ASTNode × Nat)
  | 0, _, _, _ => .error parserFuelErr
  | f + 1, toks, pos, left =>
    if matchT toks pos [.OR] then do
      let op := (curTok toks pos).value
      let (right, pos1) ← parseLogicalAndF f toks (pos + 1)
      parseLogicalOrLoopF f toks pos1 (.BinaryExpression op left right)
    else .ok (left, pos)

termination_by structural fuel _ _ _ => fuel
/-- Parser.parseLogicalAnd. -/
def parseLogicalAndF : Nat → List Token → Nat → Except PiperError (ASTNode × Nat)
  | 0, _, _ => .error parserFuelErr
  | f + 1, toks, pos => do
    let (left, pos1) ← parseEqualityF f toks pos
    parseLogicalAndLoopF f toks pos1 left

termination_by structural fuel _ _ => fuel
def parseLogicalAndLoopF : Nat → List Token → Nat → ASTNode → Except PiperError (ASTNode × Nat)
  | 0, _, _, _ => .error parserFuelErr
  | f + 1, toks, pos, left =>
    if matchT toks pos [.AND] then do
      let op := (curTok toks pos).value
      let (right, pos1) ← parseEqualityF f toks (pos + 1)
      parseLogicalAndLoopF f toks pos1 (.BinaryExpression op left right)
    else .ok (left, pos)

termination_by structural fuel _ _ _ => fuel
/-- Parser.parseEquality. -/
def parseEqualityF : Nat → List Token → Nat → Except PiperError (ASTNode × Nat)
  | 0, _, _ => .error parserFuelErr
  | f + 1, toks, pos => do
    let (left, pos1) ← parseComparisonF f toks pos
    parseEqualityLoopF f toks pos1 left

termination_by structural fuel _ _ => fuel
def parseEqualityLoopF : Nat → List Token → Nat → ASTNode → Except PiperError (ASTNode × Nat)
  | 0, _, _, _ => .error parserFuelErr
  | f + 1, toks, pos, left =>
    if matchT toks pos [.EQEQ, .NEQ] then do
      let op := (curTok toks pos).value
      let (right, pos1) ← parseComparisonF f toks (pos + 1)
      parseEqualityLoopF f toks pos1 (.BinaryExpression op left right)
    else .ok (left, pos)

termination_by structural fuel _ _ _ => fuel
/-- Parser.parseComparison. -/
def parseComparisonF : Nat → List Token → Nat → Except PiperError (ASTNode × Nat)
  | 0, _, _ => .error parserFuelErr
  | f + 1, toks, pos => do
    let (left, pos1) ← parseAdditiveF f toks pos
    parseComparisonLoopF f toks pos1 left

termination_by structural fuel _ _ => fuel
def parseComparisonLoopF : Nat → List Token → Nat → ASTNode → Except PiperError (ASTNode × Nat)
  | 0, _, _, _ => .error parserFuelErr
  | f + 1, toks, pos, left =>
    if matchT toks pos [.LT, .LTE, .GT, .GTE] then do
      let op := (curTok toks pos).value
      let (right, pos1) ← parseAdditiveF f toks (pos + 1)
      parseComparisonLoopF f toks pos1 (.BinaryExpression op left right)
    else .ok (left, pos)

termination_by structural fuel _ _ _ => fuel
/-- Parser.parseAdditive. -/
def parseAdditiveF : Nat → List Token → Nat → Except PiperError (ASTNode × Nat)
  | 0, _, _ => .error parserFuelErr
  | f + 1, toks, pos => do
    let (left, pos1) ← parseMultiplicativeF f toks pos
    parseAdditiveLoopF f toks pos1 left

termination_by structural fuel _ _ => fuel
def parseAdditiveLoopF : Nat → List Token → Nat → ASTNode → Except PiperError (ASTNode × Nat)
  | 0, _, _, _ => .error parserFuelErr
  | f + 1, toks, pos, left =>
    if matchT toks pos [.PLUS, .MINUS] then do
      let op := (curTok toks pos).value
      let (right, pos1) ← parseMultiplicativeF f toks (pos + 1)
      parseAdditiveLoopF f toks pos1 (.BinaryExpression op left right)
    else .ok (left, pos)

termination_by structural fuel _ _ _ => fuel
/-- Parser.parseMultiplicative. -/
def parseMultiplicativeF : Nat → List Token → Nat → Except PiperError (ASTNode × Nat)
  | 0, _, _ => .error parserFuelErr
  | f + 1, toks, pos => do
    let (left, pos1) ← parseUnaryF f toks pos
    parseMultiplicativeLoopF f toks pos1 left

termination_by structural fuel _ _ => fuel
def parseMultiplicativeLoopF : Nat → List Token → Nat → ASTNode → Except PiperError (ASTNode × Nat)
  | 0, _, _, _ => .error parserFuelErr
  | f + 1, toks, pos, left =>
    if matchT toks pos [.STAR, .SLASH, .PERCENT] then do
      let op := (curTok toks pos).value
      let (right, pos1) ← parseUnaryF f toks (pos + 1)
      parseMultiplicativeLoopF f toks pos1 (.BinaryExpression op left right)
    else .ok (left, pos)

termination_by structural fuel _ _ _ => fuel
/-- Parser.parseUnary. -/
def parseUnaryF : Nat → List Token → Nat → Except PiperError (ASTNode × Nat)
  | 0, _, _ => .error parserFuelErr
  | f + 1, toks, pos =>
    if matchT toks pos [.NOT, .MINUS] then do
      let op := (curTok toks pos).value
      let (operand, pos1) ← parseUnaryF f toks (pos + 1)
      .ok (.UnaryExpression op operand, pos1)
    else parseCallF f toks pos

termination_by structural fuel _ _ => fuel
/-- Parser.parseCall: primary followed by a left-associative chain of
argument lists. -/
def parseCallF : Nat → List Token → Nat → Except PiperError (ASTNode × Nat)
  | 0, _, _ => .error parserFuelErr
  | f + 1, toks, pos => do
    let (e, pos1) ← parsePrimaryF f toks pos
    parseCallLoopF f toks pos1 e

termination_by structural fuel _ _ => fuel
def parseCallLoopF : Nat → List Token → Nat → ASTNode → Except PiperError (ASTNode × Nat)
  | 0, _, _, _ => .error parserFuelErr
  | f + 1, toks, pos, e =>
    if matchT toks pos [.LPAREN] then do
      let (args, pos1) ←
        if matchT toks (pos + 1) [.RPAREN] then .ok ([], pos + 1)
        else parseArgsLoopF f toks (pos + 1) []
      let (_, pos2) ← expectT toks pos1 .RPAREN
      parseCallLoopF f toks pos2 (.CallExpression e args)
    else .ok (e, pos)

termination_by structural fuel _ _ _ => fuel
/-- The do-while argument-list loop of parseCall: a leading comma is
consumed at the top of each iteration. -/
def parseArgsLoopF : Nat → List Token → Nat → List ASTNode →
    Except PiperError (List ASTNode × Nat)
  | 0, _, _, _ => .error parserFuelErr
  | f + 1, toks, pos, acc => do
    let pos1 := if matchT toks pos [.COMMA] then pos + 1 else pos
    let (e, pos2) ← parseExpressionF f toks pos1
    if matchT toks pos2 [.COMMA] then parseArgsLoopF f toks pos2 (acc ++ [e])
    else .ok (acc ++ [e], pos2)

termination_by structural fuel _ _ _ => fuel
/-- Parser.parsePrimary: if-expression, block, lambda, array,
parenthesised expression, literals, identifier, or the unexpected-token
diagnostic. -/
def parsePrimaryF : Nat → List Token → Nat → Except PiperError (ASTNode × Nat)
  | 0, _, _ => .error parserFuelErr
  | f + 1, toks, pos =>
    let token := curTok toks pos
    if matchT toks pos [.IF] then parseIfExpressionF f toks pos
    else if matchT toks pos [.LBRACE] then parseBlockExpressionF f toks pos
    else if matchT toks pos [.PIPE] then parseLambdaF f toks pos
    else if matchT toks pos [.LBRACKET] then parseArrayLiteralF f toks pos
    else if matchT toks pos [.LPAREN] then do
      let (e, pos1) ← parseExpressionF f toks (pos + 1)
      let (_, pos2) ← expectT toks pos1 .RPAREN
      .ok (e, pos2)
    else if matchT toks pos [.NUMBER] then
      .ok (.Literal (.num (parseFloat token.value)) token.value, pos + 1)
    else if matchT toks pos [.STRING] then
      .ok (.Literal (.str token.value) ("\"" ++ token.value ++ "\""), pos + 1)
    else if matchT toks pos [.TRUE] then
      .ok (.Literal (.bool true) "true", pos + 1)
    else if matchT toks pos [.FALSE] then
      .ok (.Literal (.bool false) "false", pos + 1)
    else if matchT toks pos [.NULL] then
      .ok (.Literal .null "null", pos + 1)
    else if matchT toks pos [.IDENTIFIER] then
      .ok (.Identifier token.value, pos + 1)
    else
      .error ⟨"Unexpected token " ++ displayName token.type,
        token.loc.line, token.loc.column⟩

termination_by structural fuel _ _ => fuel
/-- Parser.parseIfExpression: the then keyword is consumed when present;
the then branch is a block when it starts with a brace, else a full
expression; an else branch starting with a brace or an if keyword is parsed
as a primary, else as a full expression. -/
def parseIfExpressionF : Nat → List Token → Nat → Except PiperError (ASTNode × Nat)
  | 0, _, _ => .error parserFuelErr
  | f + 1, toks, pos => do
    let (condition, pos1) ← parseExpressionF f toks (pos + 1)
    let pos2 := if matchT toks pos1 [.THEN] then pos1 + 1 else pos1
    let (thenBranch, pos3) ←
      if matchT toks pos2 [.LBRACE] then parseBlockExpressionF f toks pos2
      else parseExpressionF f toks pos2
    if matchT toks pos3 [.ELSE] then do
      let (elseBranch, pos4) ←
        if matchT toks (pos3 + 1) [.LBRACE] ∨ matchT toks (pos3 + 1) [.IF] then
          parsePrimaryF f toks (pos3 + 1)
        else parseExpressionF f toks (pos3 + 1)
      .ok (.IfExpression condition thenBranch (some elseBranch), pos4)
    else .ok (.IfExpression condition thenBranch none, pos3)

termination_by structural fuel _ _ => fuel
/-- Parser.parseBlockExpression: braces around a statement list. -/
def parseBlockExpressionF : Nat → List Token → Nat → Except PiperError (ASTNode × Nat)
  | 0, _, _ => .error parserFuelErr
  | f + 1, toks, pos => do
    let (_, pos1) ← expectT toks pos .LBRACE
    let (stmts, pos2) ← parseBlockLoopF f toks pos1 []
    let (_, pos3) ← expectT toks pos2 .RBRACE
    .ok (.BlockExpression stmts, pos3)

termination_by structural fuel _ _ => fuel
def parseBlockLoopF : Nat → List Token → Nat → List ASTNode →
    Except PiperError (List ASTNode × Nat)
  | 0, _, _, _ => .error parserFuelErr
  | f + 1, toks, pos, acc =>
    if matchT toks pos [.RBRACE] ∨ matchT toks pos [.EOF] then .ok (acc, pos)
    else do
      let (stmt, pos1) ← parseStatementF f toks pos
      parseBlockLoopF f toks pos1 (acc ++ [stmt])

termination_by structural fuel _ _ _ => fuel
/-- Parser.parseLambda: bare pipe delimiters around a parameter list, then
a block or a single expression body. -/
def parseLambdaF : Nat → List Token → Nat → Except PiperError (ASTNode × Nat)
  | 0, _, _ => .error parserFuelErr
  | f + 1, toks, pos => do
    let (_, pos1) ← expectT toks pos .PIPE
    let (params, pos2) ←
      if matchT toks pos1 [.PIPE] then .ok ([], pos1)
      else parseParamsLoopF f toks pos1 []
    let (_, pos3) ← expectT toks pos2 .PIPE
    let (body, pos4) ←
      if matchT toks pos3 [.LBRACE] then parseBlockExpressionF f toks pos3
      else parseExpressionF f toks pos3
    .ok (.Lambda params body, pos4)

termination_by structural fuel _ _ => fuel
/-- Parser.parseArrayLiteral: the same do-while element loop shape as
argument lists. -/
def parseArrayLiteralF : Nat → List Token → Nat → Except PiperError (ASTNode × Nat)
  | 0, _, _ => .error parserFuelErr
  | f + 1, toks, pos => do
    let (_, pos1) ← expectT toks pos .LBRACKET
    let (elements, pos2) ←
      if matchT toks pos1 [.RBRACKET] then .ok ([], pos1)
      else parseElementsLoopF f toks pos1 []
    let (_, pos3) ← expectT toks pos2 .RBRACKET
    .ok (.ArrayLiteral elements, pos3)

termination_by structural fuel _ _ => fuel
def parseElementsLoopF : Nat → List Token → Nat → List ASTNode →
    Except PiperError (List ASTNode × Nat)
  | 0, _, _, _ => .error parserFuelErr
  | f + 1, toks, pos, acc => do
    let pos1 := if matchT toks pos [.COMMA] then pos + 1 else pos
    let (e, pos2) ← parseExpressionF f toks pos1
    if matchT toks pos2 [.COMMA] then parseElementsLoopF f toks pos2 (acc ++ [e])
    else .ok (acc ++ [e], pos2)

end

/-- Fuel supplied to the parser: the descent chain between two token
consumptions has bounded length, so this exceeds the recursion depth of any
parse of the token list. -/
def parserFuel (toks : List Token) : Nat :=
  16 * toks.length + 64

/-- Parser.parse: run the statement loop from the instance cursor and wrap
the result in a Program node; the instance state is returned so that
repeated calls on one instance are observable, as in the source. -/
def Parser.parse (p : Parser) : Except PiperError (ASTNode × Parser) :=
  match parseProgramF (parserFuel p.tokens) p.tokens p.pos with
  | .error e => .error e
  | .ok (body, pos') => .ok (.Program body, ⟨p.tokens, pos'⟩)

/-- Tokenize and parse a source text with fresh Lexer and Parser instances,
as the driver and the tests do; parser diagnostics are flattened to their
message. -/
def parseSource (source : String) : Except String ASTNode :=
  match (mkLexer source).tokenize with
  | .error e => .error e
  | .ok (toks, _) =>
    match (Parser.ofTokens toks).parse with
    | .error e => .error e.message
    | .ok (ast, _) => .ok ast

/-! ## Code generator (src/codegen.ts) -/

/-- The BUILTINS list of src/codegen.ts. -/
def BUILTINS : List String :=
  ["print", "len", "map", "filter", "reduce", "range", "sum"]

/-- CodeGenerator.indent: two spaces per indentation level. -/
def indentStr (level : Nat) : String :=
  String.join (List.replicate level "  ")

/-- Lowercase hexadecimal digit. -/
def hexDigit (n : Nat) : Char :=
  if n < 10 then Char.ofNat ('0'.toNat + n) else Char.ofNat ('a'.toNat + (n - 10))

/-- One character of the JSON.stringify escaping used for string literals. -/
def jsonEscChar (c : Char) : String :=
  if c = '"' then "\\\""
  else if c = '\\' then "\\\\"
  else if c = '\x08' then "\\b"
  else if c = '\x0c' then "\\f"
  else if c = '\n' then "\\n"
  else if c = '\r' then "\\r"
  else if c = '\t' then "\\t"
  else if c.toNat < 32 then
    "\\u00" ++ String.singleton (hexDigit (c.toNat / 16)) ++
      String.singleton (hexDigit (c.toNat % 16))
  else String.singleton c

/-- JSON.stringify on a string value, as used for string literals. -/
def jsonStringify (s : String) : String :=
  "\"" ++ String.join (s.data.map jsonEscChar) ++ "\""

/-- CodeGenerator.generateLiteral: strings via JSON.stringify, null as
null, numbers and booleans via String(value). -/
def generateLiteral : LitValue → String
  | .num v => v.render
  | .str s => jsonStringify s
  | .bool b => if b then "true" else "false"
  | .null => "null"

mutual

/-- CodeGenerator.generateExpression, returning the expression text. The
first argument is the current indentation level: the source mutates the
indent level and swaps the output buffer symmetrically around nested block
emission, so the level is the only generator state an expression reads.
The type-tag dispatches the source performs on node.right, on the callee,
on a lambda body and on the else branch are rendered as nested patterns;
the piped left operand is still generated before the right side is
examined, as in the source. -/
def generateExpression : Nat → ASTNode → Except String String
  | ind, .BinaryExpression op l r => do
    let left ← generateExpression ind l
    let right ← generateExpression ind r
    let op2 := if op = "==" then "===" else if op = "!=" then "!==" else op
    .ok ("(" ++ left ++ " " ++ op2 ++ " " ++ right ++ ")")
  | ind, .UnaryExpression op e => do
    let operand ← generateExpression ind e
    .ok ("(" ++ op ++ operand ++ ")")
  | ind, .PipeExpression l (.Identifier name) => do
    let left ← generateExpression ind l
    .ok ((if BUILTINS.contains name then "__piper." ++ name else name) ++
      "(" ++ left ++ ")")
  | ind, .PipeExpression l (.CallExpression (.Identifier name) args) => do
    let left ← generateExpression ind l
    let argStrs ← generateArgs ind args
    .ok ((if BUILTINS.contains name then "__piper." ++ name else name) ++
      "(" ++ String.intercalate ", " (left :: argStrs) ++ ")")
  | ind, .PipeExpression l (.CallExpression callee args) => do
    let left ← generateExpression ind l
    let argStrs ← generateArgs ind args
    let calleeStr ← generateExpression ind callee
    .ok (calleeStr ++ "(" ++ String.intercalate ", " (left :: argStrs) ++ ")")
  | ind, .PipeExpression l r => do
    let _left ← generateExpression ind l
    .error ("Invalid pipe target: " ++ nodeTag r)
  | ind, .CallExpression (.Identifier name) args => do
    -- the callee string of an identifier is its name
    let argStrs ← generateArgs ind args
    if BUILTINS.contains name then
      .ok ("__piper." ++ name ++ "(" ++ String.intercalate ", " argStrs ++ ")")
    else
      .ok (name ++ "(" ++ String.intercalate ", " argStrs ++ ")")
  | ind, .CallExpression callee args => do
    let calleeStr ← generateExpression ind callee
    let argStrs ← generateArgs ind args
    .ok (calleeStr ++ "(" ++ String.intercalate ", " argStrs ++ ")")
  | ind, .Lambda params (.BlockExpression stmts) => do
    let inner ← generateBlockBody (ind + 1) stmts
    .ok ("((" ++ String.intercalate ", " params ++ ") => " ++
      ("\x7b\n" ++ inner ++ indentStr ind ++ "\x7d") ++ ")")
  | ind, .Lambda params body => do
    let b ← generateExpression ind body
    .ok ("((" ++ String.intercalate ", " params ++ ") => " ++ b ++ ")")
  | _, .Identifier name => .ok name
  | _, .Literal v _ => .ok (generateLiteral v)
  | ind, .ArrayLiteral elements => do
    let els ← generateArgs ind elements
    .ok ("[" ++ String.intercalate ", " els ++ "]")
  | ind, .IfExpression c t (some e) => do
    let condition ← generateExpression ind c
    let thenBranch ← generateExpression ind t
    let elseBranch ← generateExpression ind e
    .ok ("(" ++ condition ++ " ? " ++ thenBranch ++ " : " ++ elseBranch ++ ")")
  | ind, .IfExpression c t none => do
    let condition ← generateExpression ind c
    let thenBranch ← generateExpression ind t
    .ok ("(" ++ condition ++ " ? " ++ thenBranch ++ " : undefined)")
  | ind, .BlockExpression stmts => do
    let inner ← generateBlockBody (ind + 1) stmts
    .ok ("(() => \x7b\n" ++ inner ++ indentStr ind ++ "\x7d)()")
  | _, other => .error ("Unknown expression type: " ++ nodeTag other)
termination_by structural _ node => node

/-- CodeGenerator.generateNode, returning the text the statement emits
(each emitLine contributes its indentation, the code and a newline). The
unchecked body casts of the source are rendered as nested BlockExpression
patterns; a non-block body there (unreachable from the parser) crashes in
the source reading its statements and is modelled as an error. -/
def generateNode : Nat → ASTNode → Except String String
  | _, .Program _ => .error "Unexpected Program node in generateNode"
  | ind, .LetDeclaration name init => do
    let i ← generateExpression ind init
    .ok (indentStr ind ++ "const " ++ name ++ " = " ++ i ++ ";\n")
  | ind, .VarDeclaration name init => do
    let i ← generateExpression ind init
    .ok (indentStr ind ++ "let " ++ name ++ " = " ++ i ++ ";\n")
  | ind, .FunctionDeclaration name params body true => do
    let b ← generateExpression ind body
    .ok (indentStr ind ++ "function " ++ name ++ "(" ++
      String.intercalate ", " params ++ ") \x7b\n" ++
      indentStr (ind + 1) ++ "return " ++ b ++ ";\n" ++
      indentStr ind ++ "\x7d\n")
  | ind, .FunctionDeclaration name params (.BlockExpression stmts) false => do
    let inner ← generateBlockBody (ind + 1) stmts
    .ok (indentStr ind ++ "function " ++ name ++ "(" ++
      String.intercalate ", " params ++ ") \x7b\n" ++
      inner ++ indentStr ind ++ "\x7d\n")
  | _, .FunctionDeclaration _ _ body false =>
    .error ("TypeError: statements of " ++ nodeTag body)
  | ind, .Assignment name value => do
    let v ← generateExpression ind value
    .ok (indentStr ind ++ name ++ " = " ++ v ++ ";\n")
  | ind, .WhileStatement condition (.BlockExpression stmts) => do
    let c ← generateExpression ind condition
    let inner ← generateStatements (ind + 1) stmts
    .ok (indentStr ind ++ "while (" ++ c ++ ") \x7b\n" ++
      inner ++ indentStr ind ++ "\x7d\n")
  | ind, .WhileStatement condition body => do
    let _c ← generateExpression ind condition
    .error ("TypeError: statements of " ++ nodeTag body)
  | ind, .ForStatement varName iterable (.BlockExpression stmts) => do
    let it ← generateExpression ind iterable
    let inner ← generateStatements (ind + 1) stmts
    .ok (indentStr ind ++ "for (const " ++ varName ++ " of " ++ it ++
      ") \x7b\n" ++ inner ++ indentStr ind ++ "\x7d\n")
  | ind, .ForStatement _ iterable body => do
    let _it ← generateExpression ind iterable
    .error ("TypeError: statements of " ++ nodeTag body)
  | ind, .ReturnStatement (some v) => do
    let s ← generateExpression ind v
    .ok (indentStr ind ++ "return " ++ s ++ ";\n")
  | ind, .ReturnStatement none => .ok (indentStr ind ++ "return;\n")
  | ind, .ExpressionStatement e => do
    let s ← generateExpression ind e
    .ok (indentStr ind ++ s ++ ";\n")
  | _, other => .error ("Unknown statement type: " ++ nodeTag other)
termination_by structural _ node => node

/-- The argument mapping of generateCallExpression and
generatePipeExpression (and the element mapping of generateArrayLiteral):
each expression generated in order. -/
def generateArgs : Nat → List ASTNode → Except String (List String)
  | _, [] => .ok []
  | ind, a :: as => do
    let s ← generateExpression ind a
    let rest ← generateArgs ind as
    .ok (s :: rest)
termination_by structural _ l => l

/-- CodeGenerator.generateStatements: each statement emitted in order. -/
def generateStatements : Nat → List ASTNode → Except String String
  | _, [] => .ok ""
  | ind, s :: ss => do
    let a ← generateNode ind s
    let b ← generateStatements ind ss
    .ok (a ++ b)
termination_by structural _ l => l

/-- CodeGenerator.generateBlockBody: non-trailing statements are emitted
verbatim; a trailing expression statement becomes an explicit return of its
expression; an empty block returns undefined. -/
def generateBlockBody : Nat → List ASTNode → Except String String
  | ind, [] => .ok (indentStr ind ++ "return undefined;\n")
  | ind, [.ExpressionStatement e] => do
    let s ← generateExpression ind e
    .ok (indentStr ind ++ "return " ++ s ++ ";\n")
  | ind, [stmt] => generateNode ind stmt
  | ind, stmt :: rest => do
    let s ← generateNode ind stmt
    let r ← generateBlockBody ind rest
    .ok (s ++ r)
termination_by structural _ l => l

/-- Per-statement fragments appended to the output buffer by
CodeGenerator.generate (buffer granularity does not affect the joined
result). -/
def generateFrags : Nat → List ASTNode → Except String (List String)
  | _, [] => .ok []
  | ind, s :: ss => do
    let frag ← generateNode ind s
    let rest ← generateFrags ind ss
    .ok (frag :: rest)
termination_by structural _ l => l

end

/-- The CodeGenerator instance state: indentation level and output buffer
(initialised to 0 and empty by the constructor). -/
structure CodeGenerator where
  indentLevel : Nat
  output : List String
deriving DecidableEq

/-- A fresh CodeGenerator instance. -/
def mkCodeGenerator : CodeGenerator := ⟨0, []⟩

/-- The fixed runtime-import preamble emitted by CodeGenerator.generate. -/
def runtimePreamble : String := "import * as __piper from \"./runtime.js\";\n\n"

/-- CodeGenerator.generate: emit the preamble and one fragment per
top-level statement into the instance output buffer (which the source never
clears) and return the joined buffer; the instance state is returned so
that repeated calls on one instance are observable, as in the source. -/
def CodeGenerator.generate (st : CodeGenerator) (ast : ASTNode) :
    Except String (String × CodeGenerator) :=
  match ast with
  | .Program body =>
    (match generateFrags st.indentLevel body with
    | .error e => .error e
    | .ok frags =>
      let newOutput := st.output ++ runtimePreamble :: frags
      .ok (String.join newOutput, ⟨st.indentLevel, newOutput⟩))
  | _ =>
    -- generate is typed to take a Program; unreachable
    .error "generate expects a Program"

/-- The full pipeline on fresh instances, as the driver compile function
and the integration tests run it. -/
def genSource (source : String) : Except String String :=
  match parseSource source with
  | .error e => .error e
  | .ok ast =>
    match mkCodeGenerator.generate ast with
    | .error e => .error e
    | .ok (js, _) => .ok js

/-! ## Helper lemmas -/

theorem advance_fst (st : Lexer) : (st.advance).1 = st.current := by
  simp only [Lexer.advance]
  split <;> rfl

theorem advance_source (st : Lexer) : ((st.advance).2).source = st.source := by
  simp only [Lexer.advance]
  split <;> rfl

theorem advance_pos (st : Lexer) : ((st.advance).2).pos = st.pos + 1 := by
  simp only [Lexer.advance]
  split <;> rfl

/-- A cursor not looking at whitespace is left unchanged by skipWhitespace. -/
theorem skipWhitespace_nop (st : Lexer)
    (h : ¬(st.current = ' ' ∨ st.current = '\t' ∨ st.current = '\r')) :
    st.skipWhitespace = st := by
  unfold Lexer.skipWhitespace
  rw [skipWhitespaceF.eq_def]
  simp [h]

/-- A cursor not looking at a slash is left unchanged by skipComment. -/
theorem skipComment_nop (st : Lexer) (h : st.current ≠ '/') :
    st.skipComment = st := by
  unfold Lexer.skipComment
  rw [if_neg]
  intro hc
  exact h hc.1

theorem stringJoin_append (a b : List String) :
    String.join (a ++ b) = String.join a ++ String.join b := by
  simp only [String.join_eq, List.map_append, List.flatten_append]
  rfl

theorem stringJoin_cons (a : String) (l : List String) :
    String.join (a :: l) = a ++ String.join l := by
  simp only [String.join_eq, List.map_cons, List.flatten_cons]
  rfl

/-- Extracting the continued scan from a consTok result. -/
theorem consTok_ok (tok : Token) (r : Except String (List Token × Lexer))
    (ts : List Token) (st' : Lexer) (h : consTok tok r = .ok (ts, st')) :
    ∃ l, r = .ok (l, st') ∧ ts = tok :: l := by
  unfold consTok at h
  match r with
  | .error e => simp at h
  | .ok (l, s) =>
    simp at h
    exact ⟨l, by rw [h.2], h.1.symm⟩

/-- A successful run of the parser statement loop stops at EOF. -/
theorem parseProgramF_ok_eof : ∀ fuel toks pos body pos1,
    parseProgramF fuel toks pos = .ok (body, pos1) →
    (curTok toks pos1).type = .EOF := by
  intro fuel
  induction fuel with
  | zero =>
    intro toks pos body pos1 h
    simp only [parseProgramF] at h
    by_cases heof : (curTok toks pos).type = .EOF
    · rw [if_pos heof] at h
      simp only [Except.ok.injEq, Prod.mk.injEq] at h
      exact h.2 ▸ heof
    · rw [if_neg heof] at h
      simp at h
  | succ f ih =>
    intro toks pos body pos1 h
    simp only [parseProgramF] at h
    by_cases heof : (curTok toks pos).type = .EOF
    · rw [if_pos heof] at h
      simp only [Except.ok.injEq, Prod.mk.injEq] at h
      exact h.2 ▸ heof
    · rw [if_neg heof] at h
      cases hs : parseStatementF f toks pos with
      | error e => rw [hs] at h; simp [Bind.bind, Except.bind] at h
      | ok v =>
        obtain ⟨stmt, posA⟩ := v
        rw [hs] at h
        simp only [Bind.bind, Except.bind] at h
        cases hp : parseProgramF f toks posA with
        | error e => rw [hp] at h; simp at h
        | ok w =>
          obtain ⟨rest, posB⟩ := w
          rw [hp] at h
          simp at h
          exact h.2 ▸ ih toks posA rest posB hp

/-- A second Parser.parse call on the instance a successful parse returned
finds the cursor at EOF and yields an empty Program. -/
theorem parse_second_call (p : Parser) (r : ASTNode) (p' : Parser)
    (h : p.parse = .ok (r, p')) : p'.parse = .ok (.Program [], p') := by
  unfold Parser.parse at h ⊢
  cases hp : parseProgramF (parserFuel p.tokens) p.tokens p.pos with
  | error e => rw [hp] at h; simp at h
  | ok v =>
    obtain ⟨body, pos'⟩ := v
    rw [hp] at h
    simp at h
    have heof := parseProgramF_ok_eof _ _ _ _ _ hp
    rw [← h.2]
    simp only [parseProgramF]
    rw [if_pos heof]

/-- A second CodeGenerator.generate call on the instance returned by a
successful generate from a fresh instance reuses the retained buffer: the
result is the first result concatenated with itself. -/
theorem generate_second_call (p : ASTNode) (r : String) (st' : CodeGenerator)
    (h : mkCodeGenerator.generate p = .ok (r, st')) :
    st'.generate p = .ok (r ++ r, ⟨st'.indentLevel, st'.output ++ st'.output⟩) := by
  unfold CodeGenerator.generate at h ⊢
  split at h
  · next body =>
    simp only [mkCodeGenerator] at h
    cases hf : generateFrags 0 body with
    | error e => rw [hf] at h; simp at h
    | ok frags =>
      rw [hf] at h
      simp at h
      obtain ⟨h1, h2⟩ := h
      subst h1
      subst h2
      simp only [hf]
      simp [stringJoin_append, stringJoin_cons, hf, String.append_assoc]
  · simp at h

/-- Any error the readString scan loop raises carries the recorded start
position, provided the fuel covers the remaining input (as the wrapper
arranges); the only error raised is the unterminated-string one. -/
theorem readStringLoopF_error : ∀ fuel quote sl sc v st e,
    st.source.length + 2 ≤ fuel + st.pos →
    readStringLoopF fuel quote sl sc v st = .error e →
    e = "Unterminated string at line " ++ toString sl ++ ", column " ++ toString sc := by
  intro fuel
  induction fuel with
  | zero =>
    intro quote sl sc v st e hb h
    simp only [readStringLoopF] at h
    have hcur : st.current = '\x00' := by
      unfold Lexer.current
      apply List.getD_eq_default
      omega
    rw [hcur] at h
    simp at h
    exact h.symm
  | succ f ih =>
    intro quote sl sc v st e hb h
    simp only [readStringLoopF] at h
    by_cases hc : st.current ≠ quote ∧ st.current ≠ '\x00'
    · rw [if_pos hc] at h
      by_cases hbs : st.current = '\\'
      · rw [if_pos hbs] at h
        apply ih _ _ _ _ _ _ _ h
        simp only [advance_source, advance_pos]
        omega
      · rw [if_neg hbs] at h
        apply ih _ _ _ _ _ _ _ h
        simp only [advance_source, advance_pos]
        omega
    · rw [if_neg hc] at h
      by_cases hz : st.current = '\x00'
      · rw [if_pos hz] at h
        simp at h
        exact h.symm
      · rw [if_neg hz] at h
        simp at h

/-- Lexer.readString raises only the unterminated-string error, and it
cites the line and column at which readString was entered: the position of
the opening quote. -/
theorem readString_error (st : Lexer) (e : String)
    (h : st.readString = .error e) :
    e = "Unterminated string at line " ++ toString st.line ++
      ", column " ++ toString st.column := by
  simp only [Lexer.readString] at h
  cases hl : readStringLoopF (st.source.length + 2) st.current st.line st.column "" (st.advance).2 with
  | error e' =>
    rw [hl] at h
    simp at h
    subst h
    apply readStringLoopF_error _ _ _ _ _ _ _ _ hl
    simp only [advance_source, advance_pos]
    omega
  | ok v =>
    rw [hl] at h
    simp at h

/-- A scan positioned at a bare pipe character (not followed by another
pipe or a greater-than) emits a PIPE token with text a single pipe and
continues after one advance. -/
theorem tokenizeLoopF_step_bar (f : Nat) (st : Lexer)
    (hc : st.current = '|') (h1 : st.peek ≠ '|') (h2 : st.peek ≠ '>') :
    tokenizeLoopF (f + 1) st =
      consTok ⟨.PIPE, "|", ⟨st.line, st.column⟩⟩ (tokenizeLoopF f (st.advance).2) := by
  have hskipw : st.skipWhitespace = st := skipWhitespace_nop st (by simp [hc])
  have hskipc : st.skipComment = st := skipComment_nop st (by simp [hc])
  simp only [tokenizeLoopF, hskipw, hskipc, hc, h1, h2]
  simp [hc, h1, h2]

/-- A scan positioned at a pipe character followed by a greater-than emits
a PIPE token with the two-character pipe-operator text. -/
theorem tokenizeLoopF_step_pipeOp (f : Nat) (st : Lexer)
    (hc : st.current = '|') (hp : st.peek = '>') :
    tokenizeLoopF (f + 1) st =
      consTok ⟨.PIPE, "|>", ⟨st.line, st.column⟩⟩
        (tokenizeLoopF f (((st.advance).2).advance).2) := by
  have hskipw : st.skipWhitespace = st := skipWhitespace_nop st (by simp [hc])
  have hskipc : st.skipComment = st := skipComment_nop st (by simp [hc])
  simp only [tokenizeLoopF, hskipw, hskipc, hc, hp]
  simp [hc, hp]

/-- A scan positioned at two pipe characters emits an OR token. -/
theorem tokenizeLoopF_step_orOp (f : Nat) (st : Lexer)
    (hc : st.current = '|') (hp : st.peek = '|') :
    tokenizeLoopF (f + 1) st =
      consTok ⟨.OR, "||", ⟨st.line, st.column⟩⟩
        (tokenizeLoopF f (((st.advance).2).advance).2) := by
  have hskipw : st.skipWhitespace = st := skipWhitespace_nop st (by simp [hc])
  have hskipc : st.skipComment = st := skipComment_nop st (by simp [hc])
  simp only [tokenizeLoopF, hskipw, hskipc, hc, hp]
  simp [hc, hp]

/-! ## Claims -/

/-- C1, counterexample: parsing the token sequence of the source text
consisting of the literal one, the pipe operator and the literal two
succeeds and yields a PipeExpression whose right side is a Literal, which
is neither an Identifier nor a CallExpression — contradicting the claim
that the parser builds only Identifier or CallExpression there. -/
theorem C1_counterexample :
    parseSource "1 |> 2" =
      .ok (.Program [.ExpressionStatement
        (.PipeExpression (.Literal (.num ⟨1, ""⟩) "1")
          (.Literal (.num ⟨2, ""⟩) "2"))]) ∧
    isIdentOrCall (.Literal (.num ⟨2, ""⟩) "2") = false := by
  exact ⟨by rfl, by rfl⟩

/-- C1, amended: the parser places no shape restriction on the right side
of a pipe — it parses a full logicalOr expression there, so a Literal or a
Lambda can appear as the right side of a PipeExpression; the
Identifier-or-CallExpression restriction is enforced by the code generator
instead, which fails with the invalid-pipe-target error on every other
shape (once the left operand generated successfully, as the source
generates it first). -/
theorem C1_pipe_right_unrestricted :
    parseSource "1 |> 2" =
      .ok (.Program [.ExpressionStatement
        (.PipeExpression (.Literal (.num ⟨1, ""⟩) "1")
          (.Literal (.num ⟨2, ""⟩) "2"))]) ∧
    parseSource "5 |> |x| x * 2" =
      .ok (.Program [.ExpressionStatement
        (.PipeExpression (.Literal (.num ⟨5, ""⟩) "5")
          (.Lambda ["x"] (.BinaryExpression "*" (.Identifier "x")
            (.Literal (.num ⟨2, ""⟩) "2"))))]) ∧
    (∀ ind l r L, isIdentOrCall r = false → generateExpression ind l = .ok L →
      generateExpression ind (.PipeExpression l r) =
        .error ("Invalid pipe target: " ++ nodeTag r)) := by
  refine ⟨by rfl, by rfl, ?_⟩
  intro ind l r L hr hl
  cases r
  case Identifier _ => simp [isIdentOrCall] at hr
  case CallExpression _ _ => simp [isIdentOrCall] at hr
  all_goals rw [generateExpression.eq_def]; dsimp only; rw [hl]; rfl

/-- C1, witness for the amended theorem: the generator rejects the pipe
expression with literal five piped into literal two. -/
theorem C1_witness :
    generateExpression 0 (.PipeExpression (.Literal (.num ⟨5, ""⟩) "5")
      (.Literal (.num ⟨2, ""⟩) "2")) =
      .error ("Invalid pipe target: " ++ nodeTag (.Literal (.num ⟨2, ""⟩) "2")) :=
  C1_pipe_right_unrestricted.2.2 0 _ _ "5" (by rfl) (by rfl)

/-- C4, counterexample: an if-expression whose then branch is a non-block
expression parses successfully with the then keyword omitted — the source
text if x greater-than zero x else y is not a syntax error, contradicting
the claim that then is optional exactly when the branch starts with a
brace. -/
theorem C4_counterexample :
    parseSource "if x > 0 x else y" =
      .ok (.Program [.ExpressionStatement (.IfExpression
        (.BinaryExpression ">" (.Identifier "x") (.Literal (.num ⟨0, ""⟩) "0"))
        (.Identifier "x") (some (.Identifier "y")))]) := by rfl

/-- C4, amended: the then keyword is always optional in an if-expression,
whether or not the then branch begins with a brace: both a block then
branch and a plain expression then branch parse successfully without then. -/
theorem C4_then_always_optional :
    parseSource "if x > 0 \x7b x \x7d" =
      .ok (.Program [.ExpressionStatement (.IfExpression
        (.BinaryExpression ">" (.Identifier "x") (.Literal (.num ⟨0, ""⟩) "0"))
        (.BlockExpression [.ExpressionStatement (.Identifier "x")]) none)]) ∧
    parseSource "if x > 0 x else y" =
      .ok (.Program [.ExpressionStatement (.IfExpression
        (.BinaryExpression ">" (.Identifier "x") (.Literal (.num ⟨0, ""⟩) "0"))
        (.Identifier "x") (some (.Identifier "y")))]) := by
  exact ⟨by rfl, by rfl⟩

/-- C5, counterexample: scanning a bare pipe and then the pipe operator,
the lexer emits both with the same token kind PIPE — the bare pipe does
not differ in kind from the two-character pipe operator, contradicting the
claim that it is a distinct token. -/
theorem C5_counterexample :
    tokensOf "| |>" =
      .ok [⟨.PIPE, "|", ⟨1, 1⟩⟩, ⟨.PIPE, "|>", ⟨1, 3⟩⟩, ⟨.EOF, "", ⟨1, 5⟩⟩] ∧
    (Token.mk .PIPE "|" ⟨1, 1⟩).type = (Token.mk .PIPE "|>" ⟨1, 3⟩).type := by
  exact ⟨by rfl, by rfl⟩

/-- C5, amended: wherever the scan sits at a bare pipe (not starting a
two-character operator) it emits a token of kind PIPE with one-character
text — the same kind the pipe operator token carries, the two differing
only in their text — while two pipes are emitted as the distinct kind OR;
concretely, scanning the three forms in one source yields kinds PIPE,
PIPE, OR. -/
theorem C5_bar_shares_pipe_kind :
    (∀ f st toks stf, st.current = '|' → st.peek ≠ '|' → st.peek ≠ '>' →
      tokenizeLoopF (f + 1) st = .ok (toks, stf) →
      toks.head? = some ⟨.PIPE, "|", ⟨st.line, st.column⟩⟩) ∧
    (∀ f st toks stf, st.current = '|' → st.peek = '>' →
      tokenizeLoopF (f + 1) st = .ok (toks, stf) →
      toks.head? = some ⟨.PIPE, "|>", ⟨st.line, st.column⟩⟩) ∧
    (∀ f st toks stf, st.current = '|' → st.peek = '|' →
      tokenizeLoopF (f + 1) st = .ok (toks, stf) →
      toks.head? = some ⟨.OR, "||", ⟨st.line, st.column⟩⟩) ∧
    TokenType.OR ≠ TokenType.PIPE ∧
    tokensOf "| |> ||" =
      .ok [⟨.PIPE, "|", ⟨1, 1⟩⟩, ⟨.PIPE, "|>", ⟨1, 3⟩⟩, ⟨.OR, "||", ⟨1, 6⟩⟩,
        ⟨.EOF, "", ⟨1, 8⟩⟩] := by
  refine ⟨?_, ?_, ?_, by decide, by rfl⟩
  · intro f st toks stf hc h1 h2 hok
    rw [tokenizeLoopF_step_bar f st hc h1 h2] at hok
    obtain ⟨l, _, hts⟩ := consTok_ok _ _ _ _ hok
    rw [hts]
    rfl
  · intro f st toks stf hc hp hok
    rw [tokenizeLoopF_step_pipeOp f st hc hp] at hok
    obtain ⟨l, _, hts⟩ := consTok_ok _ _ _ _ hok
    rw [hts]
    rfl
  · intro f st toks stf hc hp hok
    rw [tokenizeLoopF_step_orOp f st hc hp] at hok
    obtain ⟨l, _, hts⟩ := consTok_ok _ _ _ _ hok
    rw [hts]
    rfl

/-- C5, witness for the amended theorem: at a source consisting of one
bare pipe, the first emitted token is PIPE with one-character text. -/
theorem C5_witness :
    ([⟨.PIPE, "|", ⟨1, 1⟩⟩] : List Token).head? =
      some ⟨.PIPE, "|", ⟨(mkLexer "|").line, (mkLexer "|").column⟩⟩ :=
  C5_bar_shares_pipe_kind.1 1 (mkLexer "|") [⟨.PIPE, "|", ⟨1, 1⟩⟩]
    ⟨"|".data, 1, 1, 2⟩ (by rfl) (by decide) (by decide) (by rfl)

/-- C9: tokenizing an unterminated string raises the lexical error citing
the opening quote position: every error readString raises carries the line
and column at which the string started, and tokenizing the double-quote
a b c source yields the error citing line one column one — the opening
quote — not column five, the end-of-input position. -/
theorem C9_unterminated_string_position :
    (∀ (st : Lexer) (e : String), st.readString = .error e →
      e = "Unterminated string at line " ++ toString st.line ++
        ", column " ++ toString st.column) ∧
    tokensOf "\"abc" = .error "Unterminated string at line 1, column 1" ∧
    ("Unterminated string at line 1, column 1" : String) ≠
      "Unterminated string at line 1, column 5" := by
  exact ⟨readString_error, by rfl, by decide⟩

/-- C9, witness: the general part applied at the unterminated two-character
source double-quote a, whose readString error is the recorded message. -/
theorem C9_witness :
    "Unterminated string at line 1, column 1" =
      "Unterminated string at line " ++ toString (mkLexer "\"a").line ++
        ", column " ++ toString (mkLexer "\"a").column :=
  C9_unterminated_string_position.1 (mkLexer "\"a") _ (by rfl)

/-- C3, counterexample: operations are not pure in the instance state — a
second tokenize on the same Lexer instance returns only the EOF token
instead of the original token sequence, and a second generate on the same
CodeGenerator instance returns the preamble twice instead of once. -/
theorem C3_counterexample :
    (mkLexer "1").tokenize =
      .ok ([⟨.NUMBER, "1", ⟨1, 1⟩⟩, ⟨.EOF, "", ⟨1, 2⟩⟩], ⟨"1".data, 1, 1, 2⟩) ∧
    Lexer.tokenize ⟨"1".data, 1, 1, 2⟩ =
      .ok ([⟨.EOF, "", ⟨1, 2⟩⟩], ⟨"1".data, 1, 1, 2⟩) ∧
    ([⟨.NUMBER, "1", ⟨1, 1⟩⟩, ⟨.EOF, "", ⟨1, 2⟩⟩] : List Token) ≠
      [⟨.EOF, "", ⟨1, 2⟩⟩] ∧
    mkCodeGenerator.generate (.Program []) =
      .ok (runtimePreamble, ⟨0, [runtimePreamble]⟩) ∧
    CodeGenerator.generate ⟨0, [runtimePreamble]⟩ (.Program []) =
      .ok (runtimePreamble ++ runtimePreamble,
        ⟨0, [runtimePreamble, runtimePreamble]⟩) ∧
    runtimePreamble ++ runtimePreamble ≠ runtimePreamble := by
  exact ⟨by rfl, by rfl, by decide, by rfl, by rfl, by decide⟩

/-- C3, amended: each stage owns its cursor and buffer state and does not
reset it at the start of an invocation; results are reproducible when each
call uses a fresh instance (as the driver and tests construct, one per
compilation), but a repeated call on the same instance differs: a second
parse returns an empty Program from the cursor left at EOF, a second
generate returns the first result concatenated with itself from the
retained buffer, and a second tokenize returns only an EOF token from the
cursor left at end of input. -/
theorem C3_state_not_reset :
    (∀ p r p', Parser.parse p = .ok (r, p') → p'.parse = .ok (.Program [], p')) ∧
    (∀ p r st', mkCodeGenerator.generate p = .ok (r, st') →
      st'.generate p = .ok (r ++ r, ⟨st'.indentLevel, st'.output ++ st'.output⟩)) ∧
    (mkLexer "1").tokenize =
      .ok ([⟨.NUMBER, "1", ⟨1, 1⟩⟩, ⟨.EOF, "", ⟨1, 2⟩⟩], ⟨"1".data, 1, 1, 2⟩) ∧
    Lexer.tokenize ⟨"1".data, 1, 1, 2⟩ =
      .ok ([⟨.EOF, "", ⟨1, 2⟩⟩], ⟨"1".data, 1, 1, 2⟩) := by
  exact ⟨parse_second_call, generate_second_call, by rfl, by rfl⟩

/-- C3, witness: a second parse after parsing the single-number program
returns an empty Program from the same cursor position. -/
theorem C3_witness :
    Parser.parse ⟨[⟨.NUMBER, "1", ⟨1, 1⟩⟩, ⟨.EOF, "", ⟨1, 2⟩⟩], 1⟩ =
      .ok (.Program [], ⟨[⟨.NUMBER, "1", ⟨1, 1⟩⟩, ⟨.EOF, "", ⟨1, 2⟩⟩], 1⟩) :=
  C3_state_not_reset.1 ⟨[⟨.NUMBER, "1", ⟨1, 1⟩⟩, ⟨.EOF, "", ⟨1, 2⟩⟩], 0⟩
    (.Program [.ExpressionStatement (.Literal (.num ⟨1, ""⟩) "1")])
    ⟨[⟨.NUMBER, "1", ⟨1, 1⟩⟩, ⟨.EOF, "", ⟨1, 2⟩⟩], 1⟩ (by rfl)

/-- C2: pipe desugaring. A pipe into an identifier generates a call of
that identifier (qualified when it is a built-in) with the generated left
operand as sole argument; a pipe into a call generates the call with the
left operand inserted as the first positional argument before the original
call arguments in order, both for identifier callees and for any other
callee; concretely, piping five into add of three yields add of five and
three in that order, and piping five into double yields double of five. -/
theorem C2_pipe_desugaring :
    (∀ (ind : Nat) (left : ASTNode) (L name : String),
      generateExpression ind left = .ok L →
      generateExpression ind (.PipeExpression left (.Identifier name)) =
        .ok ((if BUILTINS.contains name then "__piper." ++ name else name) ++
          "(" ++ L ++ ")")) ∧
    (∀ (ind : Nat) (left : ASTNode) (L name : String) (args : List ASTNode)
        (As : List String),
      generateExpression ind left = .ok L →
      generateArgs ind args = .ok As →
      generateExpression ind
          (.PipeExpression left (.CallExpression (.Identifier name) args)) =
        .ok ((if BUILTINS.contains name then "__piper." ++ name else name) ++
          "(" ++ String.intercalate ", " (L :: As) ++ ")")) ∧
    (∀ (ind : Nat) (left callee : ASTNode) (L C : String) (args : List ASTNode)
        (As : List String),
      (∀ n, callee ≠ .Identifier n) →
      generateExpression ind left = .ok L →
      generateArgs ind args = .ok As →
      generateExpression ind callee = .ok C →
      generateExpression ind (.PipeExpression left (.CallExpression callee args)) =
        .ok (C ++ "(" ++ String.intercalate ", " (L :: As) ++ ")")) ∧
    genSource "5 |> add(3)" = .ok (runtimePreamble ++ "add(5, 3);\n") ∧
    genSource "5 |> double" = .ok (runtimePreamble ++ "double(5);\n") := by
  refine ⟨?_, ?_, ?_, by rfl, by rfl⟩
  · intro ind left L name hL
    rw [generateExpression.eq_def]
    dsimp only
    rw [hL]
    rfl
  · intro ind left L name args As hL hA
    rw [generateExpression.eq_def]
    dsimp only
    rw [hL]
    dsimp only [Bind.bind, Except.bind]
    rw [hA]
  · intro ind left callee L C args As hne hL hA hC
    cases callee
    case Identifier n => exact absurd rfl (hne n)
    all_goals
      rw [generateExpression.eq_def]
      dsimp only
      rw [hL]
      dsimp only [Bind.bind, Except.bind]
      rw [hA]
      dsimp only [Bind.bind, Except.bind]
      rw [hC]

/-- C2, witness: piping literal five into the identifier double generates
the call of double with sole argument five. -/
theorem C2_witness :
    generateExpression 0 (.PipeExpression (.Literal (.num ⟨5, ""⟩) "5")
      (.Identifier "double")) =
      .ok ((if BUILTINS.contains "double" then "__piper." ++ "double"
        else "double") ++ "(" ++ "5" ++ ")") :=
  C2_pipe_desugaring.1 0 _ "5" "double" (by rfl)

/-- C6: built-in qualification. A call whose callee is an identifier is
generated with the runtime-namespace prefix exactly when the name is one
of the seven built-ins, and unqualified otherwise — both for plain calls
and for calls as pipe targets; concretely, print of forty-two references
the runtime namespace while a user-defined name does not, and the built-in
set is the seven names print, len, map, filter, reduce, range, sum. -/
theorem C6_builtin_qualification :
    (∀ (ind : Nat) (name : String) (args : List ASTNode) (As : List String),
      generateArgs ind args = .ok As →
      generateExpression ind (.CallExpression (.Identifier name) args) =
        .ok ((if BUILTINS.contains name then "__piper." ++ name else name) ++
          "(" ++ String.intercalate ", " As ++ ")")) ∧
    (∀ (ind : Nat) (left : ASTNode) (L name : String) (args : List ASTNode)
        (As : List String),
      generateExpression ind left = .ok L →
      generateArgs ind args = .ok As →
      generateExpression ind
          (.PipeExpression left (.CallExpression (.Identifier name) args)) =
        .ok ((if BUILTINS.contains name then "__piper." ++ name else name) ++
          "(" ++ String.intercalate ", " (L :: As) ++ ")")) ∧
    BUILTINS = ["print", "len", "map", "filter", "reduce", "range", "sum"] ∧
    genSource "print(42)" = .ok (runtimePreamble ++ "__piper.print(42);\n") ∧
    genSource "foo(42)" = .ok (runtimePreamble ++ "foo(42);\n") := by
  refine ⟨?_, ?_, by rfl, by rfl, by rfl⟩
  · intro ind name args As hA
    rw [generateExpression.eq_def]
    dsimp only
    rw [hA]
    by_cases hb : name ∈ BUILTINS
    · simp [hb]
      rfl
    · simp [hb]
      rfl
  · intro ind left L name args As hL hA
    rw [generateExpression.eq_def]
    dsimp only
    rw [hL]
    dsimp only [Bind.bind, Except.bind]
    rw [hA]

/-- C6, witness: the plain-call part applied to print of forty-two. -/
theorem C6_witness :
    generateExpression 0 (.CallExpression (.Identifier "print")
      [.Literal (.num ⟨42, ""⟩) "42"]) =
      .ok ((if BUILTINS.contains "print" then "__piper." ++ "print"
        else "print") ++ "(" ++ String.intercalate ", " ["42"] ++ ")") :=
  C6_builtin_qualification.1 0 "print" [.Literal (.num ⟨42, ""⟩) "42"] ["42"] (by rfl)

/-- C7: every binary expression is generated fully parenthesised with the
double-equals operator rewritten to triple-equals and bang-equals to
bang-double-equals (all other operators emitted as-is), and every unary
expression is generated fully parenthesised; concretely, x double-equals y
generates with the strict operator. -/
theorem C7_strict_equality_parens :
    (∀ (ind : Nat) (op : String) (l r : ASTNode) (L R : String),
      generateExpression ind l = .ok L →
      generateExpression ind r = .ok R →
      generateExpression ind (.BinaryExpression op l r) =
        .ok ("(" ++ L ++ " " ++
          (if op = "==" then "===" else if op = "!=" then "!==" else op) ++
          " " ++ R ++ ")")) ∧
    (∀ (ind : Nat) (op : String) (e : ASTNode) (E : String),
      generateExpression ind e = .ok E →
      generateExpression ind (.UnaryExpression op e) =
        .ok ("(" ++ op ++ E ++ ")")) ∧
    genSource "x == y" = .ok (runtimePreamble ++ "(x === y);\n") ∧
    genSource "x != y" = .ok (runtimePreamble ++ "(x !== y);\n") := by
  refine ⟨?_, ?_, by rfl, by rfl⟩
  · intro ind op l r L R hL hR
    rw [generateExpression.eq_def]
    dsimp only
    rw [hL]
    dsimp only [Bind.bind, Except.bind]
    rw [hR]
  · intro ind op e E hE
    rw [generateExpression.eq_def]
    dsimp only
    rw [hE]
    rfl

/-- C7, witness: the binary part applied to x double-equals y. -/
theorem C7_witness :
    generateExpression 0 (.BinaryExpression "==" (.Identifier "x") (.Identifier "y")) =
      .ok ("(" ++ "x" ++ " " ++
        (if "==" = "==" then "===" else if "==" = "!=" then "!==" else "==") ++
        " " ++ "y" ++ ")") :=
  C7_strict_equality_parens.1 0 "==" _ _ "x" "y" (by rfl) (by rfl)

/-- C8: a block compiled in expression position returns its trailing
value: an empty statement list generates an explicit return of undefined,
a trailing expression statement generates an explicit return of its
generated expression, and every non-trailing statement is emitted verbatim
before the rest; concretely, the block binding x to five with trailing
x times two compiles, in expression position, to a closure explicitly
returning the value of x times two. -/
theorem C8_block_trailing_return :
    (∀ ind : Nat,
      generateBlockBody ind [] = .ok (indentStr ind ++ "return undefined;\n")) ∧
    (∀ (ind : Nat) (e : ASTNode) (E : String),
      generateExpression ind e = .ok E →
      generateBlockBody ind [.ExpressionStatement e] =
        .ok (indentStr ind ++ "return " ++ E ++ ";\n")) ∧
    (∀ (ind : Nat) (stmt : ASTNode) (rest : List ASTNode) (S R : String),
      rest ≠ [] →
      generateNode ind stmt = .ok S →
      generateBlockBody ind rest = .ok R →
      generateBlockBody ind (stmt :: rest) = .ok (S ++ R)) ∧
    genSource "\x7b let x = 5; x * 2 \x7d" =
      .ok (runtimePreamble ++
        "(() => \x7b\n  const x = 5;\n  return (x * 2);\n\x7d)();\n") := by
  refine ⟨fun ind => by rfl, ?_, ?_, by rfl⟩
  · intro ind e E hE
    rw [generateBlockBody.eq_def]
    dsimp only
    rw [hE]
    rfl
  · intro ind stmt rest S R hne hS hR
    cases rest with
    | nil => exact absurd rfl hne
    | cons a t =>
      rw [generateBlockBody.eq_def]
      split
      · simp_all
      · simp_all
      · simp_all
      · rename_i hno heq
        injection heq with heqA heqB
        subst heqA
        subst heqB
        rw [hS]
        simp only [Bind.bind, Except.bind]
        rw [hR]

/-- C8, witness: the trailing-expression part applied to the identifier x. -/
theorem C8_witness :
    generateBlockBody 1 [.ExpressionStatement (.Identifier "x")] =
      .ok (indentStr 1 ++ "return " ++ "x" ++ ";\n") :=
  C8_block_trailing_return.2.1 1 (.Identifier "x") "x" (by rfl)

/-- C10: a superfluous leading comma is accepted in every comma-separated
list — function parameter lists, call argument lists, lambda parameter
lists and array literals all parse with a leading comma to the same AST
(source locations aside, which this embedding does not carry) as the text
without it. -/
theorem C10_leading_comma :
    parseSource "fn f(, x) = x" =
      .ok (.Program [.FunctionDeclaration "f" ["x"] (.Identifier "x") true]) ∧
    parseSource "fn f(x) = x" =
      .ok (.Program [.FunctionDeclaration "f" ["x"] (.Identifier "x") true]) ∧
    parseSource "f(, 1)" =
      .ok (.Program [.ExpressionStatement (.CallExpression (.Identifier "f")
        [.Literal (.num ⟨1, ""⟩) "1"])]) ∧
    parseSource "f(1)" =
      .ok (.Program [.ExpressionStatement (.CallExpression (.Identifier "f")
        [.Literal (.num ⟨1, ""⟩) "1"])]) ∧
    parseSource "|, x| x" =
      .ok (.Program [.ExpressionStatement (.Lambda ["x"] (.Identifier "x"))]) ∧
    parseSource "|x| x" =
      .ok (.Program [.ExpressionStatement (.Lambda ["x"] (.Identifier "x"))]) ∧
    parseSource "[, 1]" =
      .ok (.Program [.ExpressionStatement (.ArrayLiteral
        [.Literal (.num ⟨1, ""⟩) "1"])]) ∧
    parseSource "[1]" =
      .ok (.Program [.ExpressionStatement (.ArrayLiteral
        [.Literal (.num ⟨1, ""⟩) "1"])]) := by
  exact ⟨by rfl, by rfl, by rfl, by rfl, by rfl, by rfl, by rfl, by rfl⟩
